import Mathlib

/-!
Shallow embedding of the tax computation engines of the Tax-Forms repository
(`src/engines/compute_federal_full.py` and `src/engines/compute_nj_full.py`),
together with proofs of the specification claims about them.

Modelling conventions:
* Python floats are modelled by exact rationals (`ℚ`); decimal literals such as
  `0.18` denote the exact rational the source text writes.
* A numeric input field of the taxpayer / W-2 dictionaries is modelled by
  `Field`: either the key is missing or the value is `None` (`Field.missing`),
  or it is a number / a numeric string whose parsed value is `q`
  (`Field.val q`), or it is a string `float()` fails on (`Field.bad`).
  All three are routed through `safe_float`, exactly as in the source.
* Python dict lookups `D.get(k, default)` over distinct literal keys are
  embedded as nested conditionals on the key.
* The optional `federal_eitc` module is not one of the repository's source
  files, so in this repository the `try: import` in both engines always fails:
  `EITC_AVAILABLE = False` and both EITC amounts are the fallback `0.0`.
  The embedding fixes them to `0` accordingly.
-/

namespace TaxForms

/-- A raw numeric dictionary entry as seen by `safe_float`:
missing key / `None`, a parsed numeric value, or an unparseable string. -/
inductive Field where
  | missing : Field
  | val : ℚ → Field
  | bad : Field
  deriving DecidableEq

/-- Source `safe_float` (identical in both engine modules): `None` and anything
`float()` raises on coerce to the default `0.0`; numbers pass through. -/
def safe_float : Field → ℚ
  | .missing => 0
  | .val q => q
  | .bad => 0

/-- Leap-year test of the proleptic Gregorian calendar used by
Python's `datetime.date`. -/
def isLeapYear (y : ℤ) : Bool :=
  y % 4 == 0 && (y % 100 != 0 || y % 400 == 0)

/-- Number of days in month `m` of year `y` (Python `datetime` calendar). -/
def daysInMonth (y m : ℤ) : ℤ :=
  if m = 2 then (if isLeapYear y then 29 else 28)
  else if m = 4 ∨ m = 6 ∨ m = 9 ∨ m = 11 then 30
  else 31

/-- Python `s.split(sep)` for a one-character separator: splits at every
occurrence, keeping empty pieces (`"a--b" → ["a","","b"]`, `"" → [""]`). -/
def splitOnChar (sep : Char) : List Char → List (List Char)
  | [] => [[]]
  | c :: rest =>
      let r := splitOnChar sep rest
      if c = sep then [] :: r
      else
        match r with
        | [] => [[c]]
        | p :: ps => (c :: p) :: ps

/-- Digit-string accumulator for `parseInt`. -/
def digitsVal : List Char → ℕ → Option ℕ
  | [], acc => some acc
  | c :: rest, acc =>
      if c.isDigit then digitsVal rest (10 * acc + (c.toNat - '0'.toNat)) else none

/-- Python `int()` applied to a string piece: an optional leading `'-'`
followed by at least one ASCII digit (further leniencies of `int()`, such as
surrounding whitespace, never arise in the date strings fed to it here);
anything else raises, modelled by `none`. -/
def parseInt : List Char → Option ℤ
  | [] => none
  | '-' :: rest => if rest.isEmpty then none else (digitsVal rest 0).map (fun n => -(n : ℤ))
  | cs => (digitsVal cs 0).map (fun n => (n : ℤ))

/-- Source `age_on` (identical in both engine modules): age on December 31 of
`year`.  An empty `dob`, a string that does not split on `"-"` into exactly
three integers, or components that `datetime.date` rejects (year outside
1..9999, bad month/day) all raise inside the `try`, which returns 99.  The
final term embeds the source's
`(end.month, end.day) < (born.month, born.day)` with `(12, 31)` for the
end date. -/
def age_on (dob : String) (year : ℤ) : ℤ :=
  if dob = "" then 99
  else
    match (splitOnChar '-' dob.data).map parseInt with
    | [some y, some m, some d] =>
        if 1 ≤ y ∧ y ≤ 9999 ∧ 1 ≤ m ∧ m ≤ 12 ∧ 1 ≤ d ∧ d ≤ daysInMonth y m
            ∧ 1 ≤ year ∧ year ≤ 9999 then
          year - y - (if 12 < m ∨ (12 = m ∧ 31 < d) then 1 else 0)
        else 99
    | _ => 99

/-- Python `s.lower()` (the relationship and housing-status strings compared
against are ASCII, so ASCII lowering suffices). -/
def lower (s : String) : String :=
  ⟨s.data.map Char.toLower⟩

/-- The bracket walk shared (textually duplicated) by both engines' bracket
evaluators: state is the previous cap, the remaining taxable amount and the
accumulated tax; the loop breaks as soon as the remainder is exhausted. -/
def taxLoop : List (ℚ × ℚ) → ℚ → ℚ → ℚ → ℚ
  | [], _, _, tax => tax
  | (cap, rate) :: rest, prevCap, remaining, tax =>
      let chunk := max 0 (min remaining (cap - prevCap))
      let tax' := tax + chunk * rate
      let remaining' := remaining - chunk
      if remaining' ≤ 0 then tax' else taxLoop rest cap remaining' tax'

/-- A dependent record: `relationship` is `str(d.get("relationship","child"))`
(a missing key is represented by the default string `"child"`), `dob` is
`str(d.get("dob",""))`. -/
structure Dep where
  relationship : String := "child"
  dob : String := ""
  deriving DecidableEq

/-- The taxpayer dictionary, restricted to the keys the two engines read.
String-valued keys carry their defaults (`filing_status` → `"single"`,
`dob`/`housing_status` → `""`); numeric keys are raw `Field`s. -/
structure Taxpayer where
  filing_status : String := "single"
  nec_income : Field := .missing
  nec_expenses : Field := .missing
  interest : Field := .missing
  dividends : Field := .missing
  unemployment : Field := .missing
  ssa_benefits : Field := .missing
  pension_distributions : Field := .missing
  student_loan_interest : Field := .missing
  ira_contrib : Field := .missing
  hsa_contrib : Field := .missing
  dependents : List Dep := []
  dob : String := ""
  housing_status : String := ""
  property_tax_paid : Field := .missing
  rent_paid : Field := .missing
  deriving DecidableEq

/-- A W-2 dictionary.  `nj_wages` is an `Option` because the source reads it
as `w.get("nj_wages", w.get("wages", 0.0))`: only a *missing key* (not a
`None` value) falls back to the `wages` entry. -/
structure W2 where
  wages : Field := .missing
  federal_withheld : Field := .missing
  nj_wages : Option Field := none
  nj_withheld : Field := .missing
  deriving DecidableEq

namespace Fed

/-! Embedding of `src/engines/compute_federal_full.py`.  Each intermediate
quantity of `compute_federal` is a top-level definition of the same inputs,
assembled into the result record in source order. -/

/-- Constant `TAX_YEAR = 2024`. -/
def TAX_YEAR : ℤ := 2024

/-- Source `STD_DED.get(fs, STD_DED["single"])`. -/
def STD_DED (fs : String) : ℚ :=
  if fs = "single" then 14600
  else if fs = "married_joint" then 29200
  else if fs = "married_separate" then 14600
  else if fs = "head_household" then 21900
  else if fs = "qual_widow" then 29200
  else 14600

def bracketsSingle : List (ℚ × ℚ) :=
  [(11600, 0.10), (47150, 0.12), (100525, 0.22), (191950, 0.24),
   (243725, 0.32), (609350, 0.35), (10^12, 0.37)]

def bracketsMarriedJoint : List (ℚ × ℚ) :=
  [(23200, 0.10), (94300, 0.12), (201050, 0.22), (383900, 0.24),
   (487450, 0.32), (731200, 0.35), (10^12, 0.37)]

def bracketsMarriedSeparate : List (ℚ × ℚ) :=
  [(11600, 0.10), (47150, 0.12), (100525, 0.22), (191950, 0.24),
   (243725, 0.32), (365600, 0.35), (10^12, 0.37)]

def bracketsHeadHousehold : List (ℚ × ℚ) :=
  [(16550, 0.10), (63100, 0.12), (100500, 0.22), (191950, 0.24),
   (243700, 0.32), (609350, 0.35), (10^12, 0.37)]

def bracketsQualWidow : List (ℚ × ℚ) :=
  [(23200, 0.10), (94300, 0.12), (201050, 0.22), (383900, 0.24),
   (487450, 0.32), (731200, 0.35), (10^12, 0.37)]

/-- Source `BRACKETS.get(fs, BRACKETS["single"])`. -/
def BRACKETS (fs : String) : List (ℚ × ℚ) :=
  if fs = "single" then bracketsSingle
  else if fs = "married_joint" then bracketsMarriedJoint
  else if fs = "married_separate" then bracketsMarriedSeparate
  else if fs = "head_household" then bracketsHeadHousehold
  else if fs = "qual_widow" then bracketsQualWidow
  else bracketsSingle

def CTC_PER_CHILD : ℚ := 2000
def ACTC_REFUNDABLE_LIMIT_PER_CHILD : ℚ := 1600
def ACTC_EARNED_INCOME_FLOOR : ℚ := 2500
def ACTC_RATE : ℚ := 0.15

/-- Source `CTC_PHASEOUT_START.get(fs, CTC_PHASEOUT_START["single"])`. -/
def CTC_PHASEOUT_START (fs : String) : ℚ :=
  if fs = "single" then 200000
  else if fs = "head_household" then 200000
  else if fs = "married_joint" then 400000
  else if fs = "married_separate" then 200000
  else if fs = "qual_widow" then 400000
  else 200000

def CTC_PHASEOUT_STEP : ℚ := 50

/-- Source `SSA_THRESHOLDS.get(fs, SSA_THRESHOLDS["single"])`: the
`(base, additional)` provisional-income thresholds. -/
def SSA_THRESHOLDS (fs : String) : ℚ × ℚ :=
  if fs = "single" then (25000, 34000)
  else if fs = "head_household" then (25000, 34000)
  else if fs = "qual_widow" then (32000, 44000)
  else if fs = "married_joint" then (32000, 44000)
  else if fs = "married_separate" then (0, 0)
  else (25000, 34000)

/-- Source `tax_from_brackets(taxable, filing_status)` of the federal engine. -/
def tax_from_brackets (taxable : ℚ) (filing_status : String) : ℚ :=
  max 0 (taxLoop (BRACKETS filing_status) 0 (max 0 taxable) 0)

/-- Source `taxable_ssa(agi_excl_ssa, ssa_total, filing_status)`. -/
def taxable_ssa (agi_excl_ssa ssa_total : ℚ) (filing_status : String) : ℚ :=
  if ssa_total ≤ 0 then 0
  else
    let base := (SSA_THRESHOLDS filing_status).1
    let addl := (SSA_THRESHOLDS filing_status).2
    let provisional := agi_excl_ssa + 0.5 * ssa_total
    if filing_status = "married_separate" then
      min (0.85 * ssa_total) (agi_excl_ssa + 0.5 * ssa_total)
    else if provisional ≤ base then 0
    else if provisional ≤ addl then
      min (0.5 * ssa_total) (0.5 * (provisional - base))
    else
      min (0.85 * ssa_total)
        (0.85 * (provisional - addl) + min (0.5 * ssa_total) (0.5 * (addl - base)))

/-- Source `wages = sum(safe_float(w.get("wages")) for w in w2s)`. -/
def wages (w2s : List W2) : ℚ :=
  (w2s.map (fun w => safe_float w.wages)).sum

/-- Source `nec_net = max(0.0, nec_income - nec_expenses)`. -/
def nec_net (tp : Taxpayer) : ℚ :=
  max 0 (safe_float tp.nec_income - safe_float tp.nec_expenses)

/-- Source `earned_income = wages + nec_net`. -/
def earned_income (tp : Taxpayer) (w2s : List W2) : ℚ :=
  wages w2s + nec_net tp

/-- Source `above_line = min(2500, student_loan_interest) + ira_contrib + hsa_contrib`. -/
def above_line (tp : Taxpayer) : ℚ :=
  min 2500 (safe_float tp.student_loan_interest)
    + safe_float tp.ira_contrib + safe_float tp.hsa_contrib

/-- Source `agi_excl_ssa = max(0, earned + interest + dividends + unemployment
+ pensions - above_line)`. -/
def agi_excl_ssa (tp : Taxpayer) (w2s : List W2) : ℚ :=
  max 0 (earned_income tp w2s + safe_float tp.interest + safe_float tp.dividends
    + safe_float tp.unemployment + safe_float tp.pension_distributions
    - above_line tp)

/-- Source `ssa_tax = taxable_ssa(agi_excl_ssa, ssa_total, filing_status)`. -/
def ssa_tax (tp : Taxpayer) (w2s : List W2) : ℚ :=
  taxable_ssa (agi_excl_ssa tp w2s) (safe_float tp.ssa_benefits) tp.filing_status

/-- Source `agi = agi_excl_ssa + ssa_tax`. -/
def agi (tp : Taxpayer) (w2s : List W2) : ℚ :=
  agi_excl_ssa tp w2s + ssa_tax tp w2s

/-- Source `taxable_income = max(0, agi - std_ded)`. -/
def taxable_income (tp : Taxpayer) (w2s : List W2) : ℚ :=
  max 0 (agi tp w2s - STD_DED tp.filing_status)

/-- Source `tax_before_credits = tax_from_brackets(taxable_income, filing_status)`. -/
def tax_before_credits (tp : Taxpayer) (w2s : List W2) : ℚ :=
  tax_from_brackets (taxable_income tp w2s) tp.filing_status

/-- The qualifying-children count: dependents whose lowered relationship is
`"child"` and whose age on Dec 31 of `TAX_YEAR` is under 17. -/
def qualifying_children (deps : List Dep) : ℕ :=
  (deps.filter fun d =>
    decide (lower d.relationship = "child" ∧ age_on d.dob TAX_YEAR < 17)).length

/-- Source `ctc_phaseout = int(over // 1000.0) * CTC_PHASEOUT_STEP` with
`over = max(0, agi - phase_start)`; for the non-negative `over` the Python
float floor-division followed by `int()` is the integer floor. -/
def ctc_phaseout_of (agiAmt : ℚ) (fs : String) : ℚ :=
  let over := max 0 (agiAmt - CTC_PHASEOUT_START fs)
  (⌊over / 1000⌋ : ℚ) * CTC_PHASEOUT_STEP

/-- Source `ctc_after_phase = max(0, CTC_PER_CHILD * kids - ctc_phaseout)`. -/
def ctc_after_phase_of (agiAmt : ℚ) (fs : String) (kids : ℕ) : ℚ :=
  max 0 (CTC_PER_CHILD * kids - ctc_phaseout_of agiAmt fs)

def ctc_after_phase (tp : Taxpayer) (w2s : List W2) : ℚ :=
  ctc_after_phase_of (agi tp w2s) tp.filing_status (qualifying_children tp.dependents)

/-- Source `nonref_ctc_used = min(ctc_after_phase, tax_before_credits)`. -/
def nonref_ctc_used (tp : Taxpayer) (w2s : List W2) : ℚ :=
  min (ctc_after_phase tp w2s) (tax_before_credits tp w2s)

/-- Source `tax_after_nonref = max(0, tax_before_credits - nonref_ctc_used)`. -/
def tax_after_nonref (tp : Taxpayer) (w2s : List W2) : ℚ :=
  max 0 (tax_before_credits tp w2s - nonref_ctc_used tp w2s)

/-- Source `refundable_ctc = min(actc_earned_amount, actc_per_child_cap, ctc_remaining)`. -/
def refundable_ctc (tp : Taxpayer) (w2s : List W2) : ℚ :=
  let actc_income_base := max 0 (earned_income tp w2s - ACTC_EARNED_INCOME_FLOOR)
  let actc_earned_amount := ACTC_RATE * actc_income_base
  let actc_per_child_cap :=
    ACTC_REFUNDABLE_LIMIT_PER_CHILD * (qualifying_children tp.dependents : ℚ)
  let ctc_remaining := max 0 (ctc_after_phase tp w2s - nonref_ctc_used tp w2s)
  min (min actc_earned_amount actc_per_child_cap) ctc_remaining

/-- The EITC amount: the `federal_eitc` module is not part of this repository,
so `EITC_AVAILABLE` is `False` and the engine uses the `0.0` branch. -/
def eitc (_tp : Taxpayer) (_w2s : List W2) : ℚ := 0

/-- Source `withheld = sum(safe_float(w.get("federal_withheld")) for w in w2s)`. -/
def withheld (w2s : List W2) : ℚ :=
  (w2s.map (fun w => safe_float w.federal_withheld)).sum

/-- Source `refundable_credits = refundable_ctc + eitc`. -/
def refundable_credits (tp : Taxpayer) (w2s : List W2) : ℚ :=
  refundable_ctc tp w2s + eitc tp w2s

/-- Source `net_tax = tax_after_nonref`. -/
def net_tax (tp : Taxpayer) (w2s : List W2) : ℚ :=
  tax_after_nonref tp w2s

/-- The result dictionary returned by `compute_federal`; `lineN` stands for
key `"N"`, the `ref_` fields for the `"_ref_..."` debug keys. -/
structure FedResult where
  line1z : ℚ
  line2b : ℚ
  line3a : ℚ
  line5b : ℚ
  line7 : ℚ
  line8 : ℚ
  line11 : ℚ
  line12 : ℚ
  line15 : ℚ
  line16 : ℚ
  line19 : ℚ
  line25d : ℚ
  line27 : ℚ
  line34 : ℚ
  line37 : ℚ
  ref_eitc_used : ℚ
  ref_refundable_ctc : ℚ
  ref_ctc_after_phase : ℚ
  deriving DecidableEq

/-- Source `compute_federal(taxpayer, w2s)`. -/
def compute_federal (tp : Taxpayer) (w2s : List W2) : FedResult :=
  { line1z := wages w2s
    line2b := safe_float tp.interest
    line3a := safe_float tp.dividends
    line5b := ssa_tax tp w2s
    line7 := safe_float tp.unemployment
    line8 := nec_net tp
    line11 := agi tp w2s
    line12 := STD_DED tp.filing_status
    line15 := taxable_income tp w2s
    line16 := tax_before_credits tp w2s
    line19 := nonref_ctc_used tp w2s
    line25d := withheld w2s
    line27 := refundable_ctc tp w2s + eitc tp w2s
    line34 := max 0 (withheld w2s + refundable_credits tp w2s - net_tax tp w2s)
    line37 := max 0 (net_tax tp w2s - (withheld w2s + refundable_credits tp w2s))
    ref_eitc_used := eitc tp w2s
    ref_refundable_ctc := refundable_ctc tp w2s
    ref_ctc_after_phase := ctc_after_phase tp w2s }

end Fed

namespace NJ

/-! Embedding of `src/engines/compute_nj_full.py`, in the same style. -/

/-- Constant `tax_year = 2024` (set at the top of `compute_nj`). -/
def tax_year : ℤ := 2024

def NJ_BRACKETS : List (ℚ × ℚ) :=
  [(20000, 0.0140), (35000, 0.0175), (40000, 0.0350),
   (75000, 0.05525), (500000, 0.0637), (10^12, 0.0897)]

/-- Source `NJ_PERSONAL_EXEMPTION.get(fs, NJ_PERSONAL_EXEMPTION["single"])`. -/
def NJ_PERSONAL_EXEMPTION (fs : String) : ℚ :=
  if fs = "single" then 1000
  else if fs = "married_joint" then 2000
  else if fs = "married_separate" then 1000
  else if fs = "head_household" then 1000
  else if fs = "qual_widow" then 2000
  else 1000

def NJ_DEP_EXEMPTION : ℚ := 1500

def RENT_TO_PROP_FACTOR : ℚ := 0.18
def PROP_DED_CAP : ℚ := 15000
def FLAT_PT_CREDIT : ℚ := 50
def PT_CREDIT_REFUNDABLE : Bool := false

def NJ_EITC_RATE : ℚ := 0.40

/-- Source `PENSION_EXCLUSION_MAX.get(fs, 75000.0)` (the default here is the literal
`75000.0`, not a table entry). -/
def PENSION_EXCLUSION_MAX (fs : String) : ℚ :=
  if fs = "single" then 75000
  else if fs = "married_joint" then 150000
  else if fs = "married_separate" then 75000
  else if fs = "head_household" then 75000
  else if fs = "qual_widow" then 150000
  else 75000

def PENSION_EXCLUSION_INCOME_LIMIT : ℚ := 100000
def PENSION_EXCLUSION_MIN_AGE : ℤ := 62

/-- Source `tax_from_brackets(taxable)` of the NJ engine (fixed `NJ_BRACKETS`). -/
def tax_from_brackets (taxable : ℚ) : ℚ :=
  max 0 (taxLoop NJ_BRACKETS 0 (max 0 taxable) 0)

/-- Source `nj_wages = sum(safe_float(w.get("nj_wages", w.get("wages", 0.0))) ...)`. -/
def nj_wages (w2s : List W2) : ℚ :=
  (w2s.map (fun w => safe_float (w.nj_wages.getD w.wages))).sum

/-- Source `nec_net = max(0.0, nec_income - nec_expenses)`. -/
def nec_net (tp : Taxpayer) : ℚ :=
  max 0 (safe_float tp.nec_income - safe_float tp.nec_expenses)

/-- Source `nj_gi_pre_exclusions = nj_wages + interest + dividends + unemployment
+ nec_net + pensions` (SSA excluded). -/
def nj_gi_pre_exclusions (tp : Taxpayer) (w2s : List W2) : ℚ :=
  nj_wages w2s + safe_float tp.interest + safe_float tp.dividends
    + safe_float tp.unemployment + nec_net tp + safe_float tp.pension_distributions

/-- Source `base_exemptions = pers_ex + NJ_DEP_EXEMPTION * dep_count`. -/
def base_exemptions (tp : Taxpayer) : ℚ :=
  NJ_PERSONAL_EXEMPTION tp.filing_status + NJ_DEP_EXEMPTION * tp.dependents.length

/-- Source `taxpayer_age = age_on(taxpayer.get("dob",""), tax_year)`. -/
def taxpayer_age (tp : Taxpayer) : ℤ :=
  age_on tp.dob tax_year

/-- The simplified pension exclusion: age ≥ 62 and NJ gross income under the
limit grant `min(per-status maximum, pensions)`, else `0.0`. -/
def pension_exclusion (tp : Taxpayer) (w2s : List W2) : ℚ :=
  if PENSION_EXCLUSION_MIN_AGE ≤ taxpayer_age tp
      ∧ nj_gi_pre_exclusions tp w2s ≤ PENSION_EXCLUSION_INCOME_LIMIT then
    min (PENSION_EXCLUSION_MAX tp.filing_status) (safe_float tp.pension_distributions)
  else 0

/-- The property-tax equivalent: `status` is
`(taxpayer.get("housing_status") or "").lower()`; only `"homeowner"` and
`"tenant"` set an equivalent (any other status, `""` included, leaves `0.0`),
then `prop_equiv = min(PROP_DED_CAP, max(0.0, prop_equiv))`. -/
def prop_equiv (tp : Taxpayer) : ℚ :=
  let status := lower tp.housing_status
  let raw : ℚ :=
    if status = "homeowner" then safe_float tp.property_tax_paid
    else if status = "tenant" then RENT_TO_PROP_FACTOR * safe_float tp.rent_paid
    else 0
  min PROP_DED_CAP (max 0 raw)

/-- Path A: deduct the property-tax equivalent, no credit. -/
def taxable_a (tp : Taxpayer) (w2s : List W2) : ℚ :=
  max 0 (nj_gi_pre_exclusions tp w2s - base_exemptions tp
    - pension_exclusion tp w2s - prop_equiv tp)

def net_tax_a (tp : Taxpayer) (w2s : List W2) : ℚ :=
  max 0 (tax_from_brackets (taxable_a tp w2s) - 0)

/-- Path B: no deduction; flat credit, capped at the path's tax when the
credit is nonrefundable (`PT_CREDIT_REFUNDABLE = False`). -/
def taxable_b (tp : Taxpayer) (w2s : List W2) : ℚ :=
  max 0 (nj_gi_pre_exclusions tp w2s - base_exemptions tp - pension_exclusion tp w2s)

def pt_credit (tp : Taxpayer) (w2s : List W2) : ℚ :=
  if PT_CREDIT_REFUNDABLE then FLAT_PT_CREDIT
  else min FLAT_PT_CREDIT (tax_from_brackets (taxable_b tp w2s))

def net_tax_b (tp : Taxpayer) (w2s : List W2) : ℚ :=
  max 0 (tax_from_brackets (taxable_b tp w2s) - pt_credit tp w2s)

/-- The NJ EITC: the `federal_eitc` import inside `compute_nj` fails in this
repository, so the `except` branch sets both the EITC and the refund
component to `0.0`. -/
def nj_eitc (_tp : Taxpayer) (_w2s : List W2) : ℚ := 0

def refund_component (tp : Taxpayer) (w2s : List W2) : ℚ := nj_eitc tp w2s

/-- Source `nj_withheld = sum(safe_float(w.get("nj_withheld")) for w in w2s)`. -/
def nj_withheld (w2s : List W2) : ℚ :=
  (w2s.map (fun w => safe_float w.nj_withheld)).sum

/-- The result dictionary of `compute_nj`; `lineN` stands for key `"N"`,
the remaining fields for the `"_..."` debug keys. -/
structure NJResult where
  line1z : ℚ
  line2b : ℚ
  line3a : ℚ
  line7 : ℚ
  line8 : ℚ
  line11 : ℚ
  line12 : ℚ
  line15 : ℚ
  line16 : ℚ
  line25d : ℚ
  line34 : ℚ
  line37 : ℚ
  pt_equiv : ℚ
  pt_ded_used : ℚ
  pt_credit_used : ℚ
  pension_exclusion_out : ℚ
  nj_eitc_out : ℚ
  deriving DecidableEq

/-- Source `compute_nj(taxpayer, w2s)`.  The two-path choice
`if net_tax_a <= net_tax_b` selects taxable amount, tax and the
deduction/credit actually used. -/
def compute_nj (tp : Taxpayer) (w2s : List W2) : NJResult :=
  let chosen_taxable :=
    if net_tax_a tp w2s ≤ net_tax_b tp w2s then taxable_a tp w2s else taxable_b tp w2s
  let nj_tax :=
    if net_tax_a tp w2s ≤ net_tax_b tp w2s then net_tax_a tp w2s else net_tax_b tp w2s
  let used_pt_ded :=
    if net_tax_a tp w2s ≤ net_tax_b tp w2s then prop_equiv tp else 0
  let used_pt_credit :=
    if net_tax_a tp w2s ≤ net_tax_b tp w2s then 0 else pt_credit tp w2s
  { line1z := nj_wages w2s
    line2b := safe_float tp.interest
    line3a := safe_float tp.dividends
    line7 := safe_float tp.unemployment
    line8 := nec_net tp
    line11 := nj_gi_pre_exclusions tp w2s
    line12 := base_exemptions tp + pension_exclusion tp w2s + used_pt_ded
    line15 := chosen_taxable
    line16 := nj_tax
    line25d := nj_withheld w2s
    line34 := max 0 (nj_withheld w2s - nj_tax) + refund_component tp w2s
    line37 := max 0 (nj_tax - nj_withheld w2s)
    pt_equiv := prop_equiv tp
    pt_ded_used := used_pt_ded
    pt_credit_used := used_pt_credit
    pension_exclusion_out := pension_exclusion tp w2s
    nj_eitc_out := nj_eitc tp w2s }

end NJ

/-! Concrete inputs for the scenario claims. -/

/-- Single filer, no dependents, no other income (spec §8, first scenario). -/
def tp_c6 : Taxpayer := {}

/-- One wage statement: wages 50,000, federal withholding 4,000. -/
def w2s_c6 : List W2 := [{ wages := .val 50000, federal_withheld := .val 4000 }]

/-- Married-joint filer with two qualifying children (born 2015 and 2016,
both under 17 on 2024-12-31). -/
def tp_c4 : Taxpayer :=
  { filing_status := "married_joint",
    dependents := [{ relationship := "child", dob := "2015-06-15" },
                   { relationship := "child", dob := "2016-01-02" }] }

/-- One wage statement of 400,000, putting AGI exactly at the married-joint
CTC phase-out threshold. -/
def w2s_c4 : List W2 := [{ wages := .val 400000 }]

/-- A taxpayer with housing status `"both"` who paid both property tax and
rent. -/
def tp_c7 : Taxpayer :=
  { housing_status := "both", property_tax_paid := .val 1000, rent_paid := .val 1000 }

/-! ## Helper lemmas about the bracket walk -/

/-- With non-negative rates the walk never decreases the accumulated tax. -/
theorem taxLoop_ge (slabs : List (ℚ × ℚ)) :
    ∀ prevCap remaining tax, (∀ p ∈ slabs, (0:ℚ) ≤ p.2) →
      tax ≤ taxLoop slabs prevCap remaining tax := by
  induction slabs with
  | nil => intro _ _ _ _; simp [taxLoop]
  | cons hd tl ih =>
      intro prevCap remaining tax hrates
      obtain ⟨cap, rate⟩ := hd
      have hrate : (0:ℚ) ≤ rate := hrates (cap, rate) (by simp)
      have hrates' : ∀ p ∈ tl, (0:ℚ) ≤ p.2 := fun p hp => hrates p (by simp [hp])
      have hchunk : (0:ℚ) ≤ max 0 (min remaining (cap - prevCap)) := le_max_left _ _
      have hstep : tax ≤ tax + max 0 (min remaining (cap - prevCap)) * rate := by
        nlinarith
      simp only [taxLoop]
      split
      · exact hstep
      · exact le_trans hstep (ih _ _ _ hrates')

/-- The map `r ↦ r - max 0 (min r c)` (the remaining amount after one tier) is
monotone. -/
theorem sub_clamp_mono {r₁ r₂ c : ℚ} (h : r₁ ≤ r₂) :
    r₁ - max 0 (min r₁ c) ≤ r₂ - max 0 (min r₂ c) := by
  rcases le_total r₁ c with h₁ | h₁ <;> rcases le_total r₂ c with h₂ | h₂ <;>
    rcases le_total r₁ (0:ℚ) with g₁ | g₁ <;> rcases le_total r₂ (0:ℚ) with g₂ | g₂ <;>
    simp [min_def, max_def] <;> split_ifs <;> linarith

/-- With non-negative rates the walk is monotone in the pair
(remaining amount, accumulated tax). -/
theorem taxLoop_mono (slabs : List (ℚ × ℚ)) :
    ∀ prevCap rem₁ rem₂ tax₁ tax₂, (∀ p ∈ slabs, (0:ℚ) ≤ p.2) →
      rem₁ ≤ rem₂ → tax₁ ≤ tax₂ →
      taxLoop slabs prevCap rem₁ tax₁ ≤ taxLoop slabs prevCap rem₂ tax₂ := by
  induction slabs with
  | nil => intro _ _ _ _ _ _ _ htax; simpa [taxLoop] using htax
  | cons hd tl ih =>
      intro prevCap rem₁ rem₂ tax₁ tax₂ hrates hrem htax
      obtain ⟨cap, rate⟩ := hd
      have hrate : (0:ℚ) ≤ rate := hrates (cap, rate) (by simp)
      have hrates' : ∀ p ∈ tl, (0:ℚ) ≤ p.2 := fun p hp => hrates p (by simp [hp])
      have hchunk : max 0 (min rem₁ (cap - prevCap)) ≤ max 0 (min rem₂ (cap - prevCap)) :=
        max_le_max le_rfl (min_le_min hrem le_rfl)
      have htax' : tax₁ + max 0 (min rem₁ (cap - prevCap)) * rate
          ≤ tax₂ + max 0 (min rem₂ (cap - prevCap)) * rate := by
        have := mul_le_mul_of_nonneg_right hchunk hrate
        linarith
      have hrem' : rem₁ - max 0 (min rem₁ (cap - prevCap))
          ≤ rem₂ - max 0 (min rem₂ (cap - prevCap)) := sub_clamp_mono hrem
      simp only [taxLoop]
      by_cases h₁ : rem₁ - max 0 (min rem₁ (cap - prevCap)) ≤ 0 <;>
        by_cases h₂ : rem₂ - max 0 (min rem₂ (cap - prevCap)) ≤ 0
      · simp only [if_pos h₁, if_pos h₂]; exact htax'
      · simp only [if_pos h₁, if_neg h₂]
        exact le_trans htax' (taxLoop_ge tl _ _ _ hrates')
      · exact absurd (le_trans hrem' h₂) h₁
      · simp only [if_neg h₁, if_neg h₂]
        exact ih _ _ _ _ _ hrates' hrem' htax'

/-- Starting from a zero remainder the walk accumulates nothing. -/
theorem taxLoop_zero (slabs : List (ℚ × ℚ)) (prevCap : ℚ) :
    taxLoop slabs prevCap 0 0 = 0 := by
  cases slabs with
  | nil => rfl
  | cons hd tl =>
      obtain ⟨cap, rate⟩ := hd
      have h : max 0 (min (0:ℚ) (cap - prevCap)) = 0 := max_eq_left (min_le_left _ _)
      simp [taxLoop, h]

/-- Every federal bracket table (all five statuses and the fallback) has only
non-negative rates. -/
theorem fed_rates_nonneg (fs : String) : ∀ p ∈ Fed.BRACKETS fs, (0:ℚ) ≤ p.2 := by
  unfold Fed.BRACKETS
  split_ifs <;> intro p hp <;>
    simp only [Fed.bracketsSingle, Fed.bracketsMarriedJoint, Fed.bracketsMarriedSeparate,
      Fed.bracketsHeadHousehold, Fed.bracketsQualWidow, List.mem_cons,
      List.not_mem_nil, or_false] at hp <;>
    rcases hp with h | h | h | h | h | h | h <;> subst h <;> norm_num

/-- C3: the federal bracket evaluator returns 0 at 0, is never negative, and
for every fixed bracket table (every filing-status key, the fallback table
included) is monotone non-decreasing in the non-negative taxable amount. -/
theorem fed_tax_from_brackets_props (fs : String) :
    Fed.tax_from_brackets 0 fs = 0 ∧
    (∀ t, 0 ≤ Fed.tax_from_brackets t fs) ∧
    (∀ t₁ t₂, 0 ≤ t₁ → t₁ ≤ t₂ →
      Fed.tax_from_brackets t₁ fs ≤ Fed.tax_from_brackets t₂ fs) := by
  refine ⟨?_, fun t => le_max_left _ _, fun t₁ t₂ h₁ h₂ => ?_⟩
  · simp [Fed.tax_from_brackets, taxLoop_zero]
  · exact max_le_max le_rfl
      (taxLoop_mono _ _ _ _ _ _ (fed_rates_nonneg fs) (max_le_max le_rfl h₂) le_rfl)

/-- Witness for the monotonicity clause of C3, at a concrete status and
concrete taxable amounts. -/
theorem fed_tax_from_brackets_props_witness :
    (0:ℚ) ≤ 5000 ∧ (5000:ℚ) ≤ 20000 ∧
      Fed.tax_from_brackets 5000 "single" ≤ Fed.tax_from_brackets 20000 "single" :=
  ⟨by norm_num, by norm_num,
    (fed_tax_from_brackets_props "single").2.2 5000 20000 (by norm_num) (by norm_num)⟩

/-- C1: in both engines the refund (key `"34"`) and the amount owed
(key `"37"`) are never simultaneously positive — at least one is zero — and
both are zero only when withholding plus refundable credits exactly equals
the net tax (for NJ the refundable credit is the NJ EITC, here 0). -/
theorem refund_owed_exclusive (tp : Taxpayer) (w2s : List W2) :
    ((Fed.compute_federal tp w2s).line34 = 0 ∨ (Fed.compute_federal tp w2s).line37 = 0) ∧
    ((Fed.compute_federal tp w2s).line34 = 0 ∧ (Fed.compute_federal tp w2s).line37 = 0 →
      Fed.withheld w2s + Fed.refundable_credits tp w2s = Fed.net_tax tp w2s) ∧
    ((NJ.compute_nj tp w2s).line34 = 0 ∨ (NJ.compute_nj tp w2s).line37 = 0) ∧
    ((NJ.compute_nj tp w2s).line34 = 0 ∧ (NJ.compute_nj tp w2s).line37 = 0 →
      NJ.nj_withheld w2s + NJ.nj_eitc tp w2s = (NJ.compute_nj tp w2s).line16) := by
  refine ⟨?_, ?_, ?_, ?_⟩
  · rcases le_total (Fed.withheld w2s + Fed.refundable_credits tp w2s) (Fed.net_tax tp w2s)
      with h | h
    · left
      simp only [Fed.compute_federal]
      exact max_eq_left (by linarith)
    · right
      simp only [Fed.compute_federal]
      exact max_eq_left (by linarith)
  · intro ⟨h34, h37⟩
    simp only [Fed.compute_federal, max_eq_left_iff] at h34 h37
    linarith
  · rcases le_total (NJ.nj_withheld w2s)
      (if NJ.net_tax_a tp w2s ≤ NJ.net_tax_b tp w2s then NJ.net_tax_a tp w2s
        else NJ.net_tax_b tp w2s) with h | h
    · left
      simp only [NJ.compute_nj, NJ.refund_component, NJ.nj_eitc]
      rw [max_eq_left (by linarith)]
      ring
    · right
      simp only [NJ.compute_nj]
      exact max_eq_left (by linarith)
  · intro ⟨h34, h37⟩
    simp only [NJ.compute_nj, NJ.refund_component, NJ.nj_eitc, add_zero,
      max_eq_left_iff] at h34 h37 ⊢
    linarith

/-- Witness for C1 at concrete inputs: with no income documents at all both
engines are exactly balanced, so the both-zero clauses fire. -/
theorem refund_owed_exclusive_witness :
    ((Fed.compute_federal tp_c6 []).line34 = 0 ∨ (Fed.compute_federal tp_c6 []).line37 = 0) ∧
    Fed.withheld [] + Fed.refundable_credits tp_c6 [] = Fed.net_tax tp_c6 [] ∧
    ((NJ.compute_nj tp_c6 []).line34 = 0 ∨ (NJ.compute_nj tp_c6 []).line37 = 0) ∧
    NJ.nj_withheld [] + NJ.nj_eitc tp_c6 [] = (NJ.compute_nj tp_c6 []).line16 := by
  have h34 : (Fed.compute_federal tp_c6 []).line34 = 0 := by
    norm_num [Fed.compute_federal, Fed.wages, Fed.nec_net, Fed.earned_income,
      Fed.above_line, Fed.agi_excl_ssa, Fed.ssa_tax, Fed.agi, Fed.taxable_income,
      Fed.tax_before_credits, Fed.taxable_ssa, Fed.SSA_THRESHOLDS,
      Fed.tax_from_brackets, Fed.BRACKETS, Fed.bracketsSingle, Fed.STD_DED,
      Fed.qualifying_children, Fed.ctc_after_phase, Fed.ctc_after_phase_of,
      Fed.ctc_phaseout_of, Fed.CTC_PER_CHILD, Fed.CTC_PHASEOUT_START,
      Fed.CTC_PHASEOUT_STEP, Fed.nonref_ctc_used, Fed.tax_after_nonref,
      Fed.refundable_ctc, Fed.ACTC_RATE, Fed.ACTC_EARNED_INCOME_FLOOR,
      Fed.ACTC_REFUNDABLE_LIMIT_PER_CHILD, Fed.eitc, Fed.withheld,
      Fed.refundable_credits, Fed.net_tax, safe_float, taxLoop, tp_c6]
  have h37 : (Fed.compute_federal tp_c6 []).line37 = 0 := by
    norm_num [Fed.compute_federal, Fed.wages, Fed.nec_net, Fed.earned_income,
      Fed.above_line, Fed.agi_excl_ssa, Fed.ssa_tax, Fed.agi, Fed.taxable_income,
      Fed.tax_before_credits, Fed.taxable_ssa, Fed.SSA_THRESHOLDS,
      Fed.tax_from_brackets, Fed.BRACKETS, Fed.bracketsSingle, Fed.STD_DED,
      Fed.qualifying_children, Fed.ctc_after_phase, Fed.ctc_after_phase_of,
      Fed.ctc_phaseout_of, Fed.CTC_PER_CHILD, Fed.CTC_PHASEOUT_START,
      Fed.CTC_PHASEOUT_STEP, Fed.nonref_ctc_used, Fed.tax_after_nonref,
      Fed.refundable_ctc, Fed.ACTC_RATE, Fed.ACTC_EARNED_INCOME_FLOOR,
      Fed.ACTC_REFUNDABLE_LIMIT_PER_CHILD, Fed.eitc, Fed.withheld,
      Fed.refundable_credits, Fed.net_tax, safe_float, taxLoop, tp_c6]
  have hn34 : (NJ.compute_nj tp_c6 []).line34 = 0 := by
    norm_num [NJ.compute_nj, NJ.nj_wages, NJ.nec_net, NJ.nj_gi_pre_exclusions,
      NJ.base_exemptions, NJ.NJ_PERSONAL_EXEMPTION, NJ.NJ_DEP_EXEMPTION,
      NJ.taxpayer_age, NJ.pension_exclusion, NJ.PENSION_EXCLUSION_MIN_AGE,
      NJ.PENSION_EXCLUSION_INCOME_LIMIT, NJ.PENSION_EXCLUSION_MAX, NJ.prop_equiv,
      NJ.RENT_TO_PROP_FACTOR, NJ.PROP_DED_CAP, NJ.FLAT_PT_CREDIT,
      NJ.PT_CREDIT_REFUNDABLE, NJ.taxable_a, NJ.net_tax_a, NJ.taxable_b,
      NJ.pt_credit, NJ.net_tax_b, NJ.nj_eitc, NJ.refund_component, NJ.nj_withheld,
      NJ.tax_from_brackets, NJ.NJ_BRACKETS, NJ.tax_year, safe_float, taxLoop,
      age_on, lower, tp_c6]
  have hn37 : (NJ.compute_nj tp_c6 []).line37 = 0 := by
    norm_num [NJ.compute_nj, NJ.nj_wages, NJ.nec_net, NJ.nj_gi_pre_exclusions,
      NJ.base_exemptions, NJ.NJ_PERSONAL_EXEMPTION, NJ.NJ_DEP_EXEMPTION,
      NJ.taxpayer_age, NJ.pension_exclusion, NJ.PENSION_EXCLUSION_MIN_AGE,
      NJ.PENSION_EXCLUSION_INCOME_LIMIT, NJ.PENSION_EXCLUSION_MAX, NJ.prop_equiv,
      NJ.RENT_TO_PROP_FACTOR, NJ.PROP_DED_CAP, NJ.FLAT_PT_CREDIT,
      NJ.PT_CREDIT_REFUNDABLE, NJ.taxable_a, NJ.net_tax_a, NJ.taxable_b,
      NJ.pt_credit, NJ.net_tax_b, NJ.nj_eitc, NJ.refund_component, NJ.nj_withheld,
      NJ.tax_from_brackets, NJ.NJ_BRACKETS, NJ.tax_year, safe_float, taxLoop,
      age_on, lower, tp_c6]
  exact ⟨Or.inl h34, (refund_owed_exclusive tp_c6 []).2.1 ⟨h34, h37⟩,
    Or.inl hn34, (refund_owed_exclusive tp_c6 []).2.2.2 ⟨hn34, hn37⟩⟩

/-- C2: `compute_nj` evaluates both the deduction path A and the credit
path B; the chosen net tax (key `"16"`) equals one of the two path results
and is at most the other, and whenever path A is at most path B — an exact
tie included — path A is chosen: the property-tax equivalent is used as a
deduction and no credit is used. -/
theorem nj_two_path_choice (tp : Taxpayer) (w2s : List W2) :
    ((NJ.compute_nj tp w2s).line16 = NJ.net_tax_a tp w2s ∨
      (NJ.compute_nj tp w2s).line16 = NJ.net_tax_b tp w2s) ∧
    (NJ.compute_nj tp w2s).line16 ≤ NJ.net_tax_a tp w2s ∧
    (NJ.compute_nj tp w2s).line16 ≤ NJ.net_tax_b tp w2s ∧
    (NJ.net_tax_a tp w2s ≤ NJ.net_tax_b tp w2s →
      (NJ.compute_nj tp w2s).line16 = NJ.net_tax_a tp w2s ∧
      (NJ.compute_nj tp w2s).line15 = NJ.taxable_a tp w2s ∧
      (NJ.compute_nj tp w2s).pt_ded_used = NJ.prop_equiv tp ∧
      (NJ.compute_nj tp w2s).pt_credit_used = 0) := by
  by_cases h : NJ.net_tax_a tp w2s ≤ NJ.net_tax_b tp w2s
  · simp [NJ.compute_nj, h]
  · have h' : NJ.net_tax_b tp w2s ≤ NJ.net_tax_a tp w2s := le_of_not_le h
    simp [NJ.compute_nj, h, h']

/-- Witness for C2 at concrete inputs: with no income both path results are
zero, an exact tie, and path A is chosen. -/
theorem nj_two_path_choice_witness :
    ((NJ.compute_nj tp_c6 []).line16 = NJ.net_tax_a tp_c6 [] ∨
      (NJ.compute_nj tp_c6 []).line16 = NJ.net_tax_b tp_c6 []) ∧
    (NJ.compute_nj tp_c6 []).line16 = NJ.net_tax_a tp_c6 [] ∧
    (NJ.compute_nj tp_c6 []).pt_credit_used = 0 := by
  have hab : NJ.net_tax_a tp_c6 [] ≤ NJ.net_tax_b tp_c6 [] := by
    norm_num [NJ.nj_wages, NJ.nec_net, NJ.nj_gi_pre_exclusions,
      NJ.base_exemptions, NJ.NJ_PERSONAL_EXEMPTION, NJ.NJ_DEP_EXEMPTION,
      NJ.taxpayer_age, NJ.pension_exclusion, NJ.PENSION_EXCLUSION_MIN_AGE,
      NJ.PENSION_EXCLUSION_INCOME_LIMIT, NJ.PENSION_EXCLUSION_MAX, NJ.prop_equiv,
      NJ.RENT_TO_PROP_FACTOR, NJ.PROP_DED_CAP, NJ.FLAT_PT_CREDIT,
      NJ.PT_CREDIT_REFUNDABLE, NJ.taxable_a, NJ.net_tax_a, NJ.taxable_b,
      NJ.pt_credit, NJ.net_tax_b, NJ.tax_from_brackets, NJ.NJ_BRACKETS,
      NJ.tax_year, safe_float, taxLoop, age_on, lower, tp_c6]
  exact ⟨(nj_two_path_choice tp_c6 []).1,
    ((nj_two_path_choice tp_c6 []).2.2.2 hab).1,
    ((nj_two_path_choice tp_c6 []).2.2.2 hab).2.2.2⟩

/-- C6: single filer, one W-2 with wages 50,000 and withholding 4,000, no
dependents, no other income: standard deduction 14,600, taxable income
35,400, tax before credits 4,016, no Child Tax Credit, and refund 0 (the
4,000 withheld falls 16 short of the 4,016 tax, so the exact refund is 0
with 16 owed). -/
theorem federal_single_50k_scenario :
    (Fed.compute_federal tp_c6 w2s_c6).line12 = 14600 ∧
    (Fed.compute_federal tp_c6 w2s_c6).line15 = 35400 ∧
    (Fed.compute_federal tp_c6 w2s_c6).line16 = 4016 ∧
    (Fed.compute_federal tp_c6 w2s_c6).line19 = 0 ∧
    (Fed.compute_federal tp_c6 w2s_c6).line34 = 0 ∧
    (Fed.compute_federal tp_c6 w2s_c6).line37 = 16 := by
  norm_num [Fed.compute_federal, Fed.wages, Fed.nec_net, Fed.earned_income,
    Fed.above_line, Fed.agi_excl_ssa, Fed.ssa_tax, Fed.agi, Fed.taxable_income,
    Fed.tax_before_credits, Fed.taxable_ssa, Fed.SSA_THRESHOLDS,
    Fed.tax_from_brackets, Fed.BRACKETS, Fed.bracketsSingle, Fed.STD_DED,
    Fed.qualifying_children, Fed.ctc_after_phase, Fed.ctc_after_phase_of,
    Fed.ctc_phaseout_of, Fed.CTC_PER_CHILD, Fed.CTC_PHASEOUT_START,
    Fed.CTC_PHASEOUT_STEP, Fed.nonref_ctc_used, Fed.tax_after_nonref,
    Fed.refundable_ctc, Fed.ACTC_RATE, Fed.ACTC_EARNED_INCOME_FLOOR,
    Fed.ACTC_REFUNDABLE_LIMIT_PER_CHILD, Fed.eitc, Fed.withheld,
    Fed.refundable_credits, Fed.net_tax, safe_float, taxLoop, tp_c6, w2s_c6]

/-- C4: the CTC phase-out reduction is `floor(over/1000) * 50` of the AGI
excess over the filing-status threshold, zero at or below the threshold; the
after-phase-out credit is `max 0 (2000*children - reduction)`; and the
married-joint scenario with AGI exactly 400,000 and two qualifying children
gets reduction 0 and the full 4,000 tentative credit before the liability
cap. -/
theorem ctc_phaseout_spec (agiAmt : ℚ) (fs : String) (kids : ℕ) :
    (agiAmt ≤ Fed.CTC_PHASEOUT_START fs → Fed.ctc_phaseout_of agiAmt fs = 0) ∧
    (Fed.CTC_PHASEOUT_START fs ≤ agiAmt →
      Fed.ctc_phaseout_of agiAmt fs
        = (⌊(agiAmt - Fed.CTC_PHASEOUT_START fs) / 1000⌋ : ℚ) * 50) ∧
    Fed.ctc_after_phase_of agiAmt fs kids
      = max 0 (2000 * kids - Fed.ctc_phaseout_of agiAmt fs) ∧
    (Fed.compute_federal tp_c4 w2s_c4).line11 = 400000 ∧
    Fed.ctc_phaseout_of 400000 "married_joint" = 0 ∧
    (Fed.compute_federal tp_c4 w2s_c4).ref_ctc_after_phase = 4000 := by
  have hagi : Fed.agi tp_c4 w2s_c4 = 400000 := by
    norm_num [Fed.wages, Fed.nec_net, Fed.earned_income, Fed.above_line,
      Fed.agi_excl_ssa, Fed.ssa_tax, Fed.agi, Fed.taxable_ssa,
      Fed.SSA_THRESHOLDS, safe_float, tp_c4, w2s_c4]
  have hq : Fed.qualifying_children tp_c4.dependents = 2 := by decide
  have hfs : tp_c4.filing_status = "married_joint" := rfl
  have hzero : Fed.ctc_phaseout_of 400000 "married_joint" = 0 := by
    simp [Fed.ctc_phaseout_of, Fed.CTC_PHASEOUT_START, Fed.CTC_PHASEOUT_STEP]
  refine ⟨fun h => ?_, fun h => ?_, ?_, ?_, hzero, ?_⟩
  · have hover : max 0 (agiAmt - Fed.CTC_PHASEOUT_START fs) = 0 :=
      max_eq_left (by linarith)
    simp only [Fed.ctc_phaseout_of, hover]
    norm_num
  · have hover : max 0 (agiAmt - Fed.CTC_PHASEOUT_START fs)
        = agiAmt - Fed.CTC_PHASEOUT_START fs := max_eq_right (by linarith)
    simp only [Fed.ctc_phaseout_of, hover, Fed.CTC_PHASEOUT_STEP]
  · simp [Fed.ctc_after_phase_of, Fed.CTC_PER_CHILD]
  · simp only [Fed.compute_federal, hagi]
  · simp only [Fed.compute_federal, Fed.ctc_after_phase, hagi, hq, hfs]
    norm_num [Fed.ctc_after_phase_of, Fed.CTC_PER_CHILD, hzero]

/-- Witness for C4 at concrete values on both sides of the threshold. -/
theorem ctc_phaseout_spec_witness :
    Fed.ctc_phaseout_of 100000 "single" = 0 ∧
    Fed.ctc_phaseout_of 203500 "single" = (⌊((203500 - 200000 : ℚ)) / 1000⌋ : ℚ) * 50 := by
  have h₁ := (ctc_phaseout_spec 100000 "single" 0).1
  have h₂ := (ctc_phaseout_spec 203500 "single" 0).2.1
  norm_num [Fed.CTC_PHASEOUT_START] at h₁ h₂
  refine ⟨h₁, ?_⟩
  rw [h₂]
  norm_num

/-- In every SSA threshold pair (every status and the fallback) the base
threshold is at most the additional threshold. -/
theorem ssa_base_le_addl (fs : String) :
    (Fed.SSA_THRESHOLDS fs).1 ≤ (Fed.SSA_THRESHOLDS fs).2 := by
  unfold Fed.SSA_THRESHOLDS
  split_ifs <;> norm_num

/-- C5: the taxable Social-Security portion is 0 for a zero benefit; for
`married_separate` it is `min (0.85*benefit) (provisional)`; otherwise it is
0 up to the base threshold, `min (0.5*benefit) (0.5*(provisional-base))` up
to the additional threshold, and
`min (0.85*benefit) (0.85*(provisional-addl) + min (0.5*benefit)
(0.5*(addl-base)))` above it, with provisional = AGI-excluding-SSA plus half
the benefit. -/
theorem taxable_ssa_spec (a s : ℚ) (fs : String) :
    (s = 0 → Fed.taxable_ssa a s fs = 0) ∧
    (0 < s → fs = "married_separate" →
      Fed.taxable_ssa a s fs = min (0.85 * s) (a + 0.5 * s)) ∧
    (0 < s → fs ≠ "married_separate" →
      ((a + 0.5 * s ≤ (Fed.SSA_THRESHOLDS fs).1 → Fed.taxable_ssa a s fs = 0) ∧
       ((Fed.SSA_THRESHOLDS fs).1 < a + 0.5 * s → a + 0.5 * s ≤ (Fed.SSA_THRESHOLDS fs).2 →
         Fed.taxable_ssa a s fs
           = min (0.5 * s) (0.5 * (a + 0.5 * s - (Fed.SSA_THRESHOLDS fs).1))) ∧
       ((Fed.SSA_THRESHOLDS fs).2 < a + 0.5 * s →
         Fed.taxable_ssa a s fs
           = min (0.85 * s)
               (0.85 * (a + 0.5 * s - (Fed.SSA_THRESHOLDS fs).2)
                 + min (0.5 * s) (0.5 * ((Fed.SSA_THRESHOLDS fs).2 - (Fed.SSA_THRESHOLDS fs).1)))))) := by
  refine ⟨fun hs => ?_, fun hs hms => ?_,
    fun hs hms => ⟨fun hb => ?_, fun hb ha => ?_, fun ha => ?_⟩⟩
  · simp [Fed.taxable_ssa, hs]
  · simp [Fed.taxable_ssa, not_le.mpr hs, hms]
  · simp [Fed.taxable_ssa, not_le.mpr hs, hms, hb]
  · simp [Fed.taxable_ssa, not_le.mpr hs, hms, not_le.mpr hb, ha]
  · have hba : (Fed.SSA_THRESHOLDS fs).1 < a + 0.5 * s :=
      lt_of_le_of_lt (ssa_base_le_addl fs) ha
    simp [Fed.taxable_ssa, not_le.mpr hs, hms, not_le.mpr hba, not_le.mpr ha]

/-- Witness for C5: a below-base single filer and a married-separate filer. -/
theorem taxable_ssa_spec_witness :
    Fed.taxable_ssa 10000 1000 "single" = 0 ∧
    Fed.taxable_ssa 0 100 "married_separate" = min (0.85 * 100) (0 + 0.5 * 100) := by
  refine ⟨((taxable_ssa_spec 10000 1000 "single").2.2 (by norm_num) (by decide)).1
      (by norm_num [Fed.SSA_THRESHOLDS]),
    (taxable_ssa_spec 0 100 "married_separate").2.1 (by norm_num) rfl⟩

/-- C7 counterexample: for housing status `"both"` with 1,000 property tax
and 1,000 rent the engine's property-tax equivalent is 0, not the additive
1,000 + 0.18 × 1,000 = 1,180 the claim asserts. -/
theorem prop_equiv_both_counterexample :
    (NJ.compute_nj tp_c7 []).pt_equiv = 0 ∧
    safe_float tp_c7.property_tax_paid
        + NJ.RENT_TO_PROP_FACTOR * safe_float tp_c7.rent_paid = 1180 ∧
    ¬((NJ.compute_nj tp_c7 []).pt_equiv
        = safe_float tp_c7.property_tax_paid
          + NJ.RENT_TO_PROP_FACTOR * safe_float tp_c7.rent_paid) := by
  have hl : lower tp_c7.housing_status = "both" := by decide
  have hpe : NJ.prop_equiv tp_c7 = 0 := by
    simp [NJ.prop_equiv, hl, NJ.PROP_DED_CAP]
  have hsum : safe_float tp_c7.property_tax_paid
      + NJ.RENT_TO_PROP_FACTOR * safe_float tp_c7.rent_paid = 1180 := by
    norm_num [tp_c7, safe_float, NJ.RENT_TO_PROP_FACTOR]
  have hout : (NJ.compute_nj tp_c7 []).pt_equiv = 0 := hpe
  refine ⟨hout, hsum, ?_⟩
  rw [hout, hsum]
  norm_num

/-- C7 (amended): the property-tax equivalent is the property tax paid for
housing status Homeowner, 0.18 × rent for Tenant, and 0 for any other
status (`"both"` included — the engine has no additive branch); in every
case it is clamped into [0, 15,000]. -/
theorem prop_equiv_amended (tp : Taxpayer) (w2s : List W2) :
    (lower tp.housing_status = "homeowner" →
      NJ.prop_equiv tp = min NJ.PROP_DED_CAP (max 0 (safe_float tp.property_tax_paid))) ∧
    (lower tp.housing_status = "tenant" →
      NJ.prop_equiv tp
        = min NJ.PROP_DED_CAP (max 0 (NJ.RENT_TO_PROP_FACTOR * safe_float tp.rent_paid))) ∧
    (lower tp.housing_status ≠ "homeowner" → lower tp.housing_status ≠ "tenant" →
      NJ.prop_equiv tp = 0) ∧
    NJ.prop_equiv tp ≤ NJ.PROP_DED_CAP ∧
    (NJ.compute_nj tp w2s).pt_equiv = NJ.prop_equiv tp := by
  refine ⟨fun h => ?_, fun h => ?_, fun h1 h2 => ?_, ?_, rfl⟩
  · simp [NJ.prop_equiv, h]
  · simp [NJ.prop_equiv, h]
  · simp [NJ.prop_equiv, h1, h2, NJ.PROP_DED_CAP]
  · exact min_le_left _ _

/-- Witness for the amended C7 at concrete homeowner and `"both"` inputs. -/
theorem prop_equiv_amended_witness :
    NJ.prop_equiv { housing_status := "homeowner", property_tax_paid := .val 9000 }
      = min NJ.PROP_DED_CAP (max 0 (safe_float (.val 9000))) ∧
    NJ.prop_equiv tp_c7 = 0 :=
  ⟨(prop_equiv_amended { housing_status := "homeowner", property_tax_paid := .val 9000 } []).1
      (by decide),
   (prop_equiv_amended tp_c7 []).2.2.1 (by decide) (by decide)⟩

/-- C9: both engines are deterministic — for a fixed taxpayer profile and
fixed wage statements two invocations return identical result maps (the
embedding is a pure function of these two inputs and the compiled tax-year
constant; the source reads no clock or other hidden state). -/
theorem engines_deterministic (tp : Taxpayer) (w2s : List W2) :
    Fed.compute_federal tp w2s = Fed.compute_federal tp w2s ∧
    NJ.compute_nj tp w2s = NJ.compute_nj tp w2s :=
  ⟨rfl, rfl⟩

set_option maxHeartbeats 1600000 in
/-- C8: the engines are total functions of their inputs (the embedding
returns a plain result for every taxpayer and wage list, mirroring the
source's catch-all coercions): `safe_float` sends missing/`None` and
unparseable values to 0, a filing status outside the five configured keys
makes both engines behave exactly as for `"single"`, and the absent
`federal_eitc` provider yields an EITC of 0 in both engines. -/
theorem engine_error_handling (tp : Taxpayer) (w2s : List W2) (fs : String) :
    safe_float .missing = 0 ∧ safe_float .bad = 0 ∧ (∀ q, safe_float (.val q) = q) ∧
    (fs ∉ (["single", "married_joint", "married_separate", "head_household",
        "qual_widow"] : List String) →
      Fed.compute_federal { tp with filing_status := fs } w2s
          = Fed.compute_federal { tp with filing_status := "single" } w2s ∧
      NJ.compute_nj { tp with filing_status := fs } w2s
          = NJ.compute_nj { tp with filing_status := "single" } w2s) ∧
    (Fed.compute_federal tp w2s).ref_eitc_used = 0 ∧
    (NJ.compute_nj tp w2s).nj_eitc_out = 0 := by
  refine ⟨rfl, rfl, fun q => rfl, fun h => ?_, rfl, rfl⟩
  simp only [List.mem_cons, List.not_mem_nil, or_false, not_or] at h
  obtain ⟨h1, h2, h3, h4, h5⟩ := h
  have eSTD : Fed.STD_DED fs = Fed.STD_DED "single" := by
    simp [Fed.STD_DED, h1, h2, h3, h4, h5]
  have eBR : Fed.BRACKETS fs = Fed.BRACKETS "single" := by
    simp [Fed.BRACKETS, h1, h2, h3, h4, h5]
  have eCTC : Fed.CTC_PHASEOUT_START fs = Fed.CTC_PHASEOUT_START "single" := by
    simp [Fed.CTC_PHASEOUT_START, h1, h2, h3, h4, h5]
  have eTH : Fed.SSA_THRESHOLDS fs = Fed.SSA_THRESHOLDS "single" := by
    simp [Fed.SSA_THRESHOLDS, h1, h2, h3, h4, h5]
  have eSSA : ∀ a s, Fed.taxable_ssa a s fs = Fed.taxable_ssa a s "single" := by
    intro a s
    simp [Fed.taxable_ssa, eTH, h3]
  have eNJP : NJ.NJ_PERSONAL_EXEMPTION fs = NJ.NJ_PERSONAL_EXEMPTION "single" := by
    simp [NJ.NJ_PERSONAL_EXEMPTION, h1, h2, h3, h4, h5]
  have ePEM : NJ.PENSION_EXCLUSION_MAX fs = NJ.PENSION_EXCLUSION_MAX "single" := by
    simp [NJ.PENSION_EXCLUSION_MAX, h1, h2, h3, h4, h5]
  constructor
  · simp only [Fed.compute_federal, Fed.wages, Fed.nec_net, Fed.earned_income,
      Fed.above_line, Fed.agi_excl_ssa, Fed.ssa_tax, Fed.agi, Fed.taxable_income,
      Fed.tax_before_credits, Fed.tax_from_brackets, Fed.qualifying_children,
      Fed.ctc_after_phase, Fed.ctc_after_phase_of, Fed.ctc_phaseout_of,
      Fed.nonref_ctc_used, Fed.tax_after_nonref, Fed.refundable_ctc, Fed.eitc,
      Fed.withheld, Fed.refundable_credits, Fed.net_tax]
    simp [eSTD, eBR, eCTC, eSSA]
  · simp only [NJ.compute_nj, NJ.nj_wages, NJ.nec_net, NJ.nj_gi_pre_exclusions,
      NJ.base_exemptions, NJ.taxpayer_age, NJ.pension_exclusion, NJ.prop_equiv,
      NJ.taxable_a, NJ.net_tax_a, NJ.taxable_b, NJ.pt_credit, NJ.net_tax_b,
      NJ.nj_eitc, NJ.refund_component, NJ.nj_withheld, NJ.tax_from_brackets]
    simp [eNJP, ePEM]

/-- Witness for C8 at a concrete unknown filing status. -/
theorem engine_error_handling_witness :
    Fed.compute_federal { tp_c6 with filing_status := "widow" } w2s_c6
        = Fed.compute_federal { tp_c6 with filing_status := "single" } w2s_c6 ∧
    NJ.compute_nj { tp_c6 with filing_status := "widow" } w2s_c6
        = NJ.compute_nj { tp_c6 with filing_status := "single" } w2s_c6 :=
  (engine_error_handling tp_c6 w2s_c6 "widow").2.2.2.1 (by decide)

/-- C10: an empty or unparseable date of birth makes `age_on` return 99; a
dependent with such a `dob` is therefore never a qualifying child in the
federal engine (99 is not under 17), while a taxpayer with such a `dob`
always passes the NJ pension-exclusion minimum-age test (62 ≤ 99). -/
theorem age_fallback_99 :
    (∀ y, age_on "" y = 99) ∧
    age_on "not-a-date" 2024 = 99 ∧
    (∀ (d : Dep) (rest : List Dep), age_on d.dob Fed.TAX_YEAR = 99 →
      Fed.qualifying_children (d :: rest) = Fed.qualifying_children rest) ∧
    (∀ tp : Taxpayer, tp.dob = "" → NJ.taxpayer_age tp = 99) ∧
    (∀ tp : Taxpayer, age_on tp.dob NJ.tax_year = 99 →
      NJ.PENSION_EXCLUSION_MIN_AGE ≤ NJ.taxpayer_age tp) := by
  refine ⟨fun y => by simp [age_on], by decide, fun d rest h => ?_,
    fun tp h => by simp [NJ.taxpayer_age, age_on, h], fun tp h => ?_⟩
  · simp [Fed.qualifying_children, List.filter_cons, h]
  · simp [NJ.taxpayer_age, h, NJ.PENSION_EXCLUSION_MIN_AGE]

/-- Witness for C10: a dependent with an empty `dob` is not counted, and a
taxpayer with a malformed `dob` passes the age test. -/
theorem age_fallback_99_witness :
    Fed.qualifying_children [{ relationship := "child", dob := "" }]
        = Fed.qualifying_children [] ∧
    NJ.PENSION_EXCLUSION_MIN_AGE ≤ NJ.taxpayer_age { dob := "1x0" } :=
  ⟨age_fallback_99.2.2.1 { relationship := "child", dob := "" } [] (by decide),
   age_fallback_99.2.2.2.2 { dob := "1x0" } (by decide)⟩

end TaxForms
